import Mathlib

/-!
# Verification of the Web-Diagnostics-Suite concurrent execution core

Shallow embedding, in Lean 4, of the analysis pipeline
(`backend/app/services/analysis_service.py`), the security fan-out
aggregator (`backend/app/analyzers/security_analyzer.py`) and the
resource pool (the `BrowserManager`, whose implementation is absent from
the source tree and is therefore modelled from the specification).

Modelling conventions:
- Python float arithmetic on the fixed scoring weights is embedded as
  exact rational arithmetic over `ℚ`; the built-in `round` (round half to
  even in Python 3) is embedded as `pyRound`.
- Python dictionaries that carry a fixed set of keys are embedded as
  structures; an absent optional key is a `none` / default field value.
- `async` functions are embedded as pure functions of their inputs; a
  fallible call is a `Except String` value (the `.error` case is a raised
  Python exception carrying `str(e)`).
- Progress events keep the stage labels, percent values and error flags
  of the source exactly; message strings whose source text interpolates
  runtime values (load times, counts) are abbreviated to static text,
  since no claim concerns message contents.
-/

/-- Python 3 `round` to an integer: round half to even, embedded on `ℚ`.
`Rat.floor` is used (rather than `Int.floor`) so the definition is
executable. -/
def pyRound (x : ℚ) : ℤ :=
  if x - Rat.floor x < 1/2 then Rat.floor x
  else if 1/2 < x - Rat.floor x then Rat.floor x + 1
  else if Rat.floor x % 2 = 0 then Rat.floor x else Rat.floor x + 1

theorem ratFloor_eq_intFloor (x : ℚ) : Rat.floor x = ⌊x⌋ := by
  rw [Rat.floor_def', Rat.floor_def]

theorem le_pyRound (x : ℚ) : x - 1/2 ≤ (pyRound x : ℚ) := by
  unfold pyRound
  rw [ratFloor_eq_intFloor]
  split
  next h => linarith [Int.floor_le x]
  next h =>
    split
    next h2 => push_cast; linarith [Int.lt_floor_add_one x]
    next h2 =>
      split
      next h3 => linarith
      next h3 => push_cast; linarith [Int.floor_le x]

theorem pyRound_le (x : ℚ) : (pyRound x : ℚ) ≤ x + 1/2 := by
  unfold pyRound
  rw [ratFloor_eq_intFloor]
  split
  next h => linarith [Int.floor_le x]
  next h =>
    split
    next h2 => push_cast; linarith
    next h2 =>
      split
      next h3 => linarith [Int.floor_le x]
      next h3 => push_cast; linarith

/-- For a value already in the 0..100 band, the `max(0, min(100, round(x)))`
clamp used throughout the source is the identity. -/
theorem clamp_pyRound_eq {x : ℚ} (h0 : 0 ≤ x) (h1 : x ≤ 100) :
    max 0 (min 100 (pyRound x)) = pyRound x := by
  have hlow : (0 : ℤ) ≤ pyRound x := by
    have h := le_pyRound x
    have h2 : (-1 : ℚ) < (pyRound x : ℚ) := by linarith
    have h3 : (-1 : ℤ) < pyRound x := by exact_mod_cast h2
    omega
  have hhigh : pyRound x ≤ 100 := by
    have := pyRound_le x
    have : (pyRound x : ℚ) < 101 := by linarith
    have : pyRound x < 101 := by exact_mod_cast this
    omega
  rw [min_eq_right hhigh, max_eq_right hlow]

/-- Does the character list `pat` occur at the start of `text`? -/
def charsStart : List Char → List Char → Bool
  | [], _ => true
  | _ :: _, [] => false
  | a :: as, b :: bs => a == b && charsStart as bs

/-- Does the character list `pat` occur anywhere inside `text`? -/
def charsFind : List Char → List Char → Bool
  | pat, [] => pat.isEmpty
  | pat, c :: cs => charsStart pat (c :: cs) || charsFind pat cs

/-- Python `sub in s` substring containment. -/
def strContainsSub (s sub : String) : Bool :=
  charsFind sub.toList s.toList

/-- Python `str.lower()` (ASCII case folding), written over the character
list so it evaluates by kernel reduction. -/
def strToLower (s : String) : String :=
  ⟨s.data.map Char.toLower⟩

/-! ## Phase Orchestrator: `AnalysisService` (`services/analysis_service.py`)

The four analyzer calls (each wrapped in `_run_with_timeout`) are embedded
as `Except String PhaseRes` inputs: `.ok r` is a normally returned result
dictionary, `.error e` is any exception that escapes the call — including
the `asyncio.TimeoutError` that `_run_with_timeout` raises on timeout or
cancellation (lines 296-308). -/

/-- One progress notification: arguments of `_send_progress`
(stage, progress percent, message, error flag). -/
structure ProgressEvent where
  stage : String
  percent : Nat
  message : String
  isError : Bool
deriving DecidableEq

/-- An analyzer result dictionary: the `score` entry plus the rest of the
payload, kept abstract as a token. -/
structure PhaseRes where
  score : ℤ
  payload : String
deriving DecidableEq

/-- The per-phase dictionary held by `analyze_website`: either the
analyzer result (assigned on success, lines 145-149 etc.) or the fallback
dictionary of lines 130-133 with its `error` entry overwritten by `str(e)`
in the phase except-handler. -/
inductive PhaseRecord where
  | completed (r : PhaseRes)
  | failedWith (e : String)
deriving DecidableEq

/-- Outcome of one guarded phase: the try/except around each analyzer call
(e.g. lines 144-156 for speed). -/
def runPhase : Except String PhaseRes → PhaseRecord
  | .ok r => .completed r
  | .error e => .failedWith e

/-- `results.get('score', 0)`: the fallback dictionary carries score 0. -/
def phaseScore : PhaseRecord → ℤ
  | .completed r => r.score
  | .failedWith _ => 0

/-- `AnalysisService._calculate_overall_score` (lines 310-336): weighted
sum with weights speed 0.35, seo 0.25, security 0.25, mobile 0.15, then
`max(0, min(100, round(...)))`. -/
def calculate_overall_score (speed seo security mobile : ℤ) : ℤ :=
  max 0 (min 100 (pyRound ((speed : ℚ) * (35/100) + (seo : ℚ) * (25/100) +
    (security : ℚ) * (25/100) + (mobile : ℚ) * (15/100))))

/-- `GradeCalculator.get_grade` (`models.py` lines 112-125). -/
def get_grade (score : ℤ) : String :=
  if score ≥ 90 then "A"
  else if score ≥ 80 then "B"
  else if score ≥ 70 then "C"
  else if score ≥ 60 then "D"
  else "F"

/-- The progress callback: `None`, a plain synchronous function, or an
async coroutine function (distinguished by `asyncio.iscoroutinefunction`
at line 407). A raised exception is the `.error` case. -/
inductive ProgressSink where
  | noCb
  | syncCb (f : String → Nat → String → Bool → Except String Unit)
  | asyncCb (f : String → Nat → String → Bool → Except String Unit)

/-- Lines 404-411 of `_send_progress`: dispatch on the callback kind,
passing `(stage, progress, message, error)` either way; `None` is skipped. -/
def invokeCallback : ProgressSink → String → Nat → String → Bool → Except String Unit
  | .noCb, _, _, _, _ => .ok ()
  | .syncCb f, stage, progress, message, error => f stage progress message error
  | .asyncCb f, stage, progress, message, error => f stage progress message error

/-- The run monad of `analyze_website`: a raised exception short-circuits
the remainder of the body, and the trace of progress events handed to
`_send_progress` is accumulated alongside. -/
abbrev Run (α : Type) : Type :=
  List ProgressEvent → Except String α × List ProgressEvent

def Run.pureR {α : Type} (a : α) : Run α := fun evs => (.ok a, evs)

def Run.bindR {α β : Type} (x : Run α) (f : α → Run β) : Run β := fun evs =>
  match x evs with
  | (Except.ok a, evs2) => f a evs2
  | (Except.error e, evs2) => (Except.error e, evs2)

def Run.raise {α : Type} (e : String) : Run α := fun evs => (.error e, evs)

instance : Monad Run where
  pure := Run.pureR
  bind := Run.bindR

/-- `AnalysisService._send_progress` (lines 398-414): the callback is
invoked inside a try/except; any exception it raises is logged and
swallowed, so the step always succeeds and the run continues. -/
def send_progress (cb : ProgressSink) (stage : String) (progress : Nat)
    (message : String) (error : Bool) : Run Unit := fun evs =>
  let recorded := evs ++ [⟨stage, progress, message, error⟩]
  match invokeCallback cb stage progress message error with
  | .ok _ => (.ok (), recorded)
  | .error _ => (.ok (), recorded)

theorem send_progress_apply (cb : ProgressSink) (stage : String) (progress : Nat)
    (message : String) (error : Bool) :
    send_progress cb stage progress message error =
      fun evs => (.ok (), evs ++ [⟨stage, progress, message, error⟩]) := by
  funext evs
  unfold send_progress
  cases h : invokeCallback cb stage progress message error <;> simp

/-- One analyzer step of `analyze_website`: try the call; on success emit
the completion event, on exception record the error in the result
dictionary and emit the failure event (both at the same percent). -/
def phaseStep (cb : ProgressSink) (out : Except String PhaseRes)
    (okStage failStage : String) (pct : Nat) (okMsg : String) : Run PhaseRecord :=
  match out with
  | .ok r => do
      let _ ← send_progress cb okStage pct okMsg false
      pure (PhaseRecord.completed r)
  | .error e => do
      let _ ← send_progress cb failStage pct ("Error: " ++ e) true
      pure (PhaseRecord.failedWith e)

/-- The inputs of one `analyze_website` call:
- `urlValid`: whether `_normalize_url` accepts the target (lines 117-121);
- the four analyzer outcomes;
- `includeScreenshots` (controls the extra 80 percent event, lines 195-200);
- `aggExc`: an exception raised inside the unguarded result-combination
  block (lines 216-260), caught by the outer handler of lines 262-286;
  `none` when that block completes normally. -/
structure RunInput where
  urlValid : Bool
  speedRun : Except String PhaseRes
  seoRun : Except String PhaseRes
  securityRun : Except String PhaseRes
  mobileRun : Except String PhaseRes
  includeScreenshots : Bool
  aggExc : Option String

/-- The dictionary returned by `analyze_website`: either the full results
of lines 229-251 or the partial results of lines 269-286. -/
structure FinalResults where
  overallScore : ℤ
  overallGrade : String
  speed : PhaseRecord
  seo : PhaseRecord
  security : PhaseRecord
  mobile : PhaseRecord
  fatalError : Option String
deriving DecidableEq

/-- `AnalysisService.analyze_website` (lines 94-286), as a `Run`. -/
def analyze_websiteRun (inp : RunInput) (cb : ProgressSink) : Run FinalResults := do
  if inp.urlValid then
    let _ ← send_progress cb "Initializing analysis..." 0
      "Setting up analyzers and validating URL" false
    let _ ← send_progress cb "Testing website speed..." 10
      "Measuring page load time and performance metrics" false
    let speedRec ← phaseStep cb inp.speedRun
      "Speed analysis complete" "Speed analysis failed" 25 "Page load time measured"
    let _ ← send_progress cb "Analyzing SEO factors..." 30
      "Checking title tags, meta descriptions, and content structure" false
    let seoRec ← phaseStep cb inp.seoRun
      "SEO analysis complete" "SEO analysis failed" 50 "SEO issues counted"
    let _ ← send_progress cb "Testing security features..." 55
      "Checking HTTPS, security headers, and SSL certificate" false
    let secRec ← phaseStep cb inp.securityRun
      "Security analysis complete" "Security analysis failed" 75 "Security score reported"
    let _ ← (if inp.includeScreenshots then
        send_progress cb "Testing mobile compatibility..." 80
          "Taking mobile screenshots and testing responsive design" false
      else pure ())
    let mobRec ← phaseStep cb inp.mobileRun
      "Mobile analysis complete" "Mobile analysis failed" 90 "Mobile friendliness score reported"
    let _ ← send_progress cb "Calculating final scores..." 95
      "Combining all analysis results" false
    match inp.aggExc with
    | some e => do
        let _ ← send_progress cb "Analysis failed" 0 ("Analysis failed: " ++ e) true
        pure { overallScore := 0, overallGrade := "F",
               speed := speedRec, seo := seoRec, security := secRec, mobile := mobRec,
               fatalError := some e }
    | none => do
        let overall := calculate_overall_score (phaseScore speedRec) (phaseScore seoRec)
          (phaseScore secRec) (phaseScore mobRec)
        let _ ← send_progress cb "Analysis complete!" 100 "Analysis completed" false
        pure { overallScore := overall, overallGrade := get_grade overall,
               speed := speedRec, seo := seoRec, security := secRec, mobile := mobRec,
               fatalError := none }
  else do
    let _ ← send_progress cb "Invalid URL" 0 "Invalid URL format" true
    Run.raise "Invalid URL format"

/-- Run `analyze_website` from an empty event trace: the returned pair is
(raised-or-returned outcome, progress events handed to the sink). -/
def analyze_website (inp : RunInput) (cb : ProgressSink) :
    Except String FinalResults × List ProgressEvent :=
  analyze_websiteRun inp cb []

/-! ## Probe Fan-Out Aggregator: `SecurityAnalyzer` (`analyzers/security_analyzer.py`)

`analyze` (lines 88-204) first runs `_test_basic_connectivity`, then
gathers the four probes `_analyze_ssl_certificate`,
`_analyze_security_headers`, `_analyze_https_implementation` and
`_analyze_cookie_security` with `return_exceptions=True`; each probe
outcome is embedded as an `Except String` input. The content-security
probe `_analyze_content_security_enhanced` catches every exception inside
its own body (lines 887-953), so it is embedded as a total input. -/

/-- Result of `_test_basic_connectivity` (lines 70-86). -/
structure Connectivity where
  connected : Bool
  canFetchContent : Bool
deriving DecidableEq

/-- The fields of an SSL analysis dictionary inspected by the fan-out
logic; `error` is the optional `error` key. -/
structure SslAnalysis where
  certificateFound : Bool
  error : Option String := none
  isValid : Bool := false
deriving DecidableEq

/-- A security-headers analysis dictionary: the fields the fan-out logic
reads or writes, with `statusCode`/`presentHeaders` standing for the rest
of the payload of a successful probe. -/
structure HeadersAnalysis where
  error : Option String := none
  headersScore : Nat := 0
  statusCode : Option Nat := none
  presentHeaders : Nat := 0
  missingCriticalHeaders : List String := []
  dangerousHeaders : List String := []
  confidenceWarning : Option String := none
deriving DecidableEq

/-- An HTTPS implementation analysis dictionary. -/
structure HttpsAnalysis where
  error : Option String := none
  usesHttps : Bool := false
  redirectWorking : Bool := false
  mixedContentFound : Bool := false
deriving DecidableEq

/-- One entry of `insecure_sensitive_cookies` (lines 821-825). -/
structure InsecureCookie where
  name : String
  issues : List String
deriving DecidableEq

/-- A cookie security analysis dictionary. -/
structure CookieAnalysis where
  error : Option String := none
  cookiesFound : Bool := false
  totalCookies : Nat := 0
  secureCookies : Nat := 0
  httponlyCookies : Nat := 0
  samesiteCookies : Nat := 0
  insecureSensitiveCookies : List InsecureCookie := []
  cookieSecurityScore : ℤ := 0
  confidenceWarning : Option String := none
deriving DecidableEq

/-- A content security analysis dictionary. -/
structure CspAnalysis where
  error : Option String := none
  cspImplemented : Bool := false
  sriUsage : Nat := 0
  csrfProtection : String := "unknown"
  hasInlineScripts : Bool := false
  hasInlineStyles : Bool := false
deriving DecidableEq

/-- `_create_failed_ssl_analysis` (lines 1269-1278). -/
def create_failed_ssl_analysis (error : String) : SslAnalysis :=
  { certificateFound := false, error := some error, isValid := false }

/-- `_create_failed_headers_analysis` (lines 1280-1287): score 0, all
seven checked headers listed as missing-critical. -/
def create_failed_headers_analysis (error : String) : HeadersAnalysis :=
  { error := some error, headersScore := 0,
    missingCriticalHeaders := ["strict-transport-security", "content-security-policy",
      "x-frame-options", "x-content-type-options", "x-xss-protection",
      "referrer-policy", "permissions-policy"],
    dangerousHeaders := [] }

/-- `_create_failed_https_analysis` (lines 1289-1296). -/
def create_failed_https_analysis (error : String) : HttpsAnalysis :=
  { error := some error, usesHttps := false, redirectWorking := false,
    mixedContentFound := false }

/-- `_create_failed_cookie_analysis` (lines 1298-1305). -/
def create_failed_cookie_analysis (error : String) : CookieAnalysis :=
  { error := some error, cookiesFound := false, cookieSecurityScore := 0,
    insecureSensitiveCookies := [] }

/-- `_create_failed_csp_analysis` (lines 1307-1315). -/
def create_failed_csp_analysis (error : String) : CspAnalysis :=
  { error := some error, cspImplemented := false, sriUsage := 0,
    csrfProtection := "unknown", hasInlineScripts := false, hasInlineStyles := false }

/-- `_is_ssl_connection_failure` (lines 206-211): the certificate was not
found and the lower-cased error mentions a connection-class keyword. -/
def is_ssl_connection_failure (ssl : SslAnalysis) : Bool :=
  if !ssl.certificateFound then
    ["timeout", "connection", "dns", "network"].any
      (fun keyword => strContainsSub (strToLower (ssl.error.getD "")) keyword)
  else false

/-- `_reduce_analysis_confidence` applied to a headers dictionary (lines
213-225): if the analysis has no `error` key, halve `headers_score` (the
key is present in every headers dictionary) and attach the warning. -/
def reduce_headers_confidence (analysis : HeadersAnalysis) (reason : String) : HeadersAnalysis :=
  if analysis.error = none then
    { analysis with
      headersScore := max 0 (analysis.headersScore / 2),
      confidenceWarning := some ("Reduced confidence: " ++ reason) }
  else analysis

/-- `_reduce_analysis_confidence` applied to a cookie dictionary (lines
213-225): same shape, on `cookie_security_score`. -/
def reduce_cookie_confidence (analysis : CookieAnalysis) (reason : String) : CookieAnalysis :=
  if analysis.error = none then
    { analysis with
      cookieSecurityScore := max 0 (analysis.cookieSecurityScore / 2),
      confidenceWarning := some ("Reduced confidence: " ++ reason) }
  else analysis

/-- Lines 110-113: `isinstance(x, Exception)` conversion of a gathered
probe outcome into the corresponding failed dictionary. -/
def resolveSslRun : Except String SslAnalysis → SslAnalysis
  | .ok a => a
  | .error e => create_failed_ssl_analysis e

def resolveHeadersRun : Except String HeadersAnalysis → HeadersAnalysis
  | .ok a => a
  | .error e => create_failed_headers_analysis e

def resolveHttpsRun : Except String HttpsAnalysis → HttpsAnalysis
  | .ok a => a
  | .error e => create_failed_https_analysis e

def resolveCookieRun : Except String CookieAnalysis → CookieAnalysis
  | .ok a => a
  | .error e => create_failed_cookie_analysis e

/-- The probe outcomes feeding one `SecurityAnalyzer.analyze` fan-out. -/
structure SecurityProbeRun where
  connectivity : Connectivity
  sslRun : Except String SslAnalysis
  headersRun : Except String HeadersAnalysis
  httpsRun : Except String HttpsAnalysis
  cookieRun : Except String CookieAnalysis
  cspResult : CspAnalysis

/-- The five analysis dictionaries present in the returned results
(lines 169-178). -/
structure SecurityResult where
  sslAnalysis : SslAnalysis
  headersAnalysis : HeadersAnalysis
  httpsAnalysis : HttpsAnalysis
  cookieAnalysis : CookieAnalysis
  cspAnalysis : CspAnalysis
deriving DecidableEq

/-- `SecurityAnalyzer.analyze`, lines 100-139: gather the four probes with
exception conversion, then the correlation pass — if the SSL analysis
shows a connection-class failure and the connectivity probe reports
content cannot be fetched, overwrite headers, cookie, https and csp with
failed dictionaries; otherwise take the content-security result and, if
only the SSL connection failed, reduce the confidence of the headers and
cookie analyses. -/
def security_fan_out (runs : SecurityProbeRun) : SecurityResult :=
  if is_ssl_connection_failure (resolveSslRun runs.sslRun) &&
      !runs.connectivity.canFetchContent then
    { sslAnalysis := resolveSslRun runs.sslRun,
      headersAnalysis := create_failed_headers_analysis "Connection failed - cannot reach server",
      cookieAnalysis := create_failed_cookie_analysis "Connection failed - cannot reach server",
      httpsAnalysis := create_failed_https_analysis "Connection failed - cannot reach server",
      cspAnalysis := create_failed_csp_analysis "Connection failed - cannot reach server" }
  else
    if is_ssl_connection_failure (resolveSslRun runs.sslRun) then
      { sslAnalysis := resolveSslRun runs.sslRun,
        headersAnalysis := reduce_headers_confidence (resolveHeadersRun runs.headersRun)
          "SSL connection issues detected",
        cookieAnalysis := reduce_cookie_confidence (resolveCookieRun runs.cookieRun)
          "SSL connection issues detected",
        httpsAnalysis := resolveHttpsRun runs.httpsRun,
        cspAnalysis := runs.cspResult }
    else
      { sslAnalysis := resolveSslRun runs.sslRun,
        headersAnalysis := resolveHeadersRun runs.headersRun,
        httpsAnalysis := resolveHttpsRun runs.httpsRun,
        cookieAnalysis := resolveCookieRun runs.cookieRun,
        cspAnalysis := runs.cspResult }

/-- `_calculate_cookie_security_score` (lines 848-864). -/
def calculate_cookie_security_score (total secure httponly samesite insecureSensitive : Nat) : ℤ :=
  if total = 0 then 100
  else
    let securePct : ℚ := (secure : ℚ) / (total : ℚ) * 100
    let httponlyPct : ℚ := (httponly : ℚ) / (total : ℚ) * 100
    let samesitePct : ℚ := (samesite : ℚ) / (total : ℚ) * 100
    let baseScore := securePct * (4/10) + httponlyPct * (3/10) + samesitePct * (3/10)
    let penalty : ℚ := (insecureSensitive : ℚ) * 20
    max 0 (min 100 (pyRound (baseScore - penalty)))

/-- `cookie_header.split('=')[0] if '=' in cookie_header else 'unknown'`
(line 797). -/
def cookieName (header : String) : String :=
  if strContainsSub header "=" then (header.splitOn "=").headD "unknown" else "unknown"

/-- Line 812: a cookie name containing one of the sensitive markers. -/
def isSensitiveCookieName (name : String) : Bool :=
  ["session", "auth", "login", "token", "csrf"].any
    (fun marker => strContainsSub (strToLower name) marker)

/-- Lines 811-825: the issue list recorded for one sensitive cookie
header lacking security flags. -/
def insecureCookieIssues (header : String) : List String :=
  let lower := strToLower header
  (if !strContainsSub lower "secure" then ["not secure"] else []) ++
  (if !strContainsSub lower "httponly" then ["not httpOnly"] else []) ++
  (if !strContainsSub lower "samesite=" then ["no sameSite protection"] else [])

/-- The cookie fetch underlying `_analyze_cookie_security`: either the
request raises, or it yields a response whose header multidict carries
the listed `Set-Cookie` values — the empty list when the key is absent. -/
inductive CookieFetch where
  | fetched (setCookieHeaders : List String)
  | exc (e : String)

/-- multidict `getall` with no default, as called at line 774
(`response.headers.getall('Set-Cookie')`): all values of the key, raising
`KeyError` when the key is absent from the multidict — a present key
always carries at least one value, so the result is never empty. -/
def getallSetCookie : List String → Except String (List String)
  | [] => .error "KeyError: Set-Cookie"
  | h :: hs => .ok (h :: hs)

/-- The per-cookie counting loop of lines 786-837: count the Secure,
HttpOnly and SameSite flags, collect the insecure sensitive cookies, and
score the lot. -/
def analyze_cookie_headers (headers : List String) : CookieAnalysis :=
  let total := headers.length
  let secure := (headers.filter (fun c => strContainsSub (strToLower c) "secure")).length
  let httponly := (headers.filter (fun c => strContainsSub (strToLower c) "httponly")).length
  let samesite := (headers.filter (fun c => strContainsSub (strToLower c) "samesite=")).length
  let insecure := headers.filterMap (fun c =>
    if isSensitiveCookieName (cookieName c) then
      let issues := insecureCookieIssues c
      if issues ≠ [] then some ⟨cookieName c, issues⟩ else none
    else none)
  { cookiesFound := true, totalCookies := total, secureCookies := secure,
    httponlyCookies := httponly, samesiteCookies := samesite,
    insecureSensitiveCookies := insecure,
    cookieSecurityScore :=
      calculate_cookie_security_score total secure httponly samesite insecure.length }

/-- `_analyze_cookie_security` (lines 765-846): fetch the page, read the
`Set-Cookie` values with `getall` (no default), count the security flags
and score them. Any exception — the fetch raising, or the `KeyError` that
`getall` raises when the response carries no `Set-Cookie` header — lands
in the except-handler of lines 839-846, which returns the unknown-state
score 50. The zero-cookie branch of lines 776-784 (score 100) is kept for
fidelity but is dead code: `getall` never returns an empty list. -/
def analyze_cookie_security : CookieFetch → CookieAnalysis
  | .exc e =>
      { cookiesFound := false, totalCookies := 0, cookieSecurityScore := 50,
        error := some e }
  | .fetched present =>
      match getallSetCookie present with
      | .error e =>
          { cookiesFound := false, totalCookies := 0, cookieSecurityScore := 50,
            error := some e }
      | .ok headers =>
          if headers.isEmpty then
            { cookiesFound := false, totalCookies := 0, secureCookies := 0,
              httponlyCookies := 0, samesiteCookies := 0, cookieSecurityScore := 100 }
          else
            analyze_cookie_headers headers

/-- `SecurityAnalyzer._calculate_overall_score` (lines 1116-1125): weights
ssl 0.30, headers 0.25, https 0.20, cookie 0.15, content 0.10. -/
def security_overall_score (ssl headers https cookie content : ℤ) : ℤ :=
  max 0 (min 100 (pyRound ((ssl : ℚ) * (30/100) + (headers : ℚ) * (25/100) +
    (https : ℚ) * (20/100) + (cookie : ℚ) * (15/100) + (content : ℚ) * (10/100))))

/-! ## Resource Pool

Modelled from the spec: the `BrowserManager` class itself (the Resource
Pool of spec section 4.1 — `PoolEntry` lifecycle, `checkout`, `release`,
`maintain`, `shutdown`, and the `get_browser_page` async context manager)
is absent from the source tree: `utils/browser_manager.py` holds an
unrelated stale copy of a mobile analyzer, and only the callers of the
pool appear under `src/`. The state machine below follows the contract of
spec sections 3 and 4.1 word by word: entries cycle
Provisioning/Idle/Leased/Retiring/Closed, checkout hands an Idle entry to
exactly one caller (provisioning a fresh, uniquely identified entry when
none is idle, or failing with AcquisitionFailed / ShuttingDown), release
returns the entry to Idle — or Retiring once the use-count reaches its
ceiling — exactly once per lease with a double-release guard, maintenance
removes only idle or retiring entries and tops the pool up with fresh
idle entries, and shutdown closes every non-leased entry and rejects new
checkouts. Because checkout, release, maintain and shutdown are mutually
exclusive (one critical section per pool), a pool history is an
interleaving of these atomic steps, captured by the `PoolStep` relation. -/

/-- Modelled from the spec: the PoolEntry states of spec section 3. -/
inductive EntryState where
  | provisioning
  | idle
  | leased
  | retiring
  | closed
deriving DecidableEq

/-- Modelled from the spec: one leasable automation-engine instance with
its lifecycle metadata. -/
structure PoolEntry where
  eid : Nat
  state : EntryState
  useCount : Nat
  maxUseCount : Nat
deriving DecidableEq

/-- Modelled from the spec: the pool — its entry list, the entry ids of
the outstanding leases, a fresh-id counter, and the shutdown flag. -/
structure PoolState where
  entries : List PoolEntry
  leases : List Nat
  nextId : Nat
  shuttingDown : Bool
deriving DecidableEq

inductive PoolError where
  | acquisitionFailed
  | shuttingDown
deriving DecidableEq

/-- Modelled from the spec: a pool initialized with `n` idle entries. -/
def initPool (n maxUse : Nat) : PoolState :=
  { entries := (List.range n).map
      (fun i => { eid := i, state := .idle, useCount := 0, maxUseCount := maxUse }),
    leases := [], nextId := n, shuttingDown := false }

/-- Mark the entry with id `i` as leased. -/
def markLeased (es : List PoolEntry) (i : Nat) : List PoolEntry :=
  es.map (fun e => if e.eid = i then { e with state := .leased } else e)

/-- Modelled from the spec: `checkout` — rejected once shutdown has begun;
otherwise a Lease bound to an Idle entry if one exists, else a freshly
provisioned entry (steady-state growth and the logged overflow entry have
the same state shape); `AcquisitionFailed` when the underlying engine
cannot be created (`engineOk = false`). The returned `Nat` is the entry
id the new Lease references. -/
def checkout (s : PoolState) (engineOk : Bool) (maxUse : Nat) :
    Except PoolError (PoolState × Nat) :=
  if s.shuttingDown then .error .shuttingDown
  else
    match s.entries.find? (fun e => decide (e.state = EntryState.idle)) with
    | some e =>
        .ok ({ s with entries := markLeased s.entries e.eid, leases := e.eid :: s.leases },
          e.eid)
    | none =>
        if engineOk then
          .ok ({ s with
                 entries := { eid := s.nextId, state := .leased, useCount := 0,
                              maxUseCount := maxUse } :: s.entries,
                 leases := s.nextId :: s.leases,
                 nextId := s.nextId + 1 }, s.nextId)
        else .error .acquisitionFailed

/-- Modelled from the spec: the released entry returns to Idle with its
use-count incremented, or moves to Retiring once the use-count reaches
the retirement threshold. -/
def releaseEntry (e : PoolEntry) : PoolEntry :=
  if e.useCount + 1 ≥ e.maxUseCount then { e with state := .retiring, useCount := e.useCount + 1 }
  else { e with state := .idle, useCount := e.useCount + 1 }

/-- Modelled from the spec: `release` — callable exactly once per lease;
a double release (an id with no outstanding lease) is guarded as a no-op. -/
def release (s : PoolState) (lid : Nat) : PoolState :=
  if lid ∈ s.leases then
    { s with
      leases := s.leases.erase lid,
      entries := s.entries.map (fun e => if e.eid = lid then releaseEntry e else e) }
  else s

/-- Modelled from the spec: one `maintain` cycle — remove idle entries
past the configured idle ceiling (`stale`) and retiring entries awaiting
replacement, never touching a Leased entry, and top the pool back up with
`topUp` freshly provisioned idle entries. -/
def maintain (s : PoolState) (stale : Nat → Bool) (topUp maxUse : Nat) : PoolState :=
  { s with
    entries := s.entries.filter (fun e =>
        !((decide (e.state = EntryState.idle) && stale e.eid) ||
          decide (e.state = EntryState.retiring))) ++
      (List.range topUp).map
        (fun i => ({ eid := s.nextId + i, state := .idle, useCount := 0,
                     maxUseCount := maxUse } : PoolEntry)),
    nextId := s.nextId + topUp }

/-- Modelled from the spec: `shutdown` — stop accepting checkouts and
close every entry that is not currently leased (in-flight leases are
allowed to finish). -/
def shutdownPool (s : PoolState) : PoolState :=
  { s with
    shuttingDown := true,
    entries := s.entries.map
      (fun e => if e.state = EntryState.leased then e else { e with state := .closed }) }

/-- One atomic critical section of the pool: a successful checkout, a
release, a maintenance cycle, or shutdown (a failed checkout leaves the
state unchanged). -/
inductive PoolStep : PoolState → PoolState → Prop where
  | checkoutOk (s : PoolState) (engineOk : Bool) (maxUse : Nat) (s2 : PoolState) (lid : Nat)
      (h : checkout s engineOk maxUse = .ok (s2, lid)) : PoolStep s s2
  | releaseStep (s : PoolState) (lid : Nat) : PoolStep s (release s lid)
  | maintainStep (s : PoolState) (stale : Nat → Bool) (topUp maxUse : Nat) :
      PoolStep s (maintain s stale topUp maxUse)
  | shutdownStep (s : PoolState) : PoolStep s (shutdownPool s)

/-- A pool state reachable from a freshly initialized pool. -/
def ReachablePool (n maxUse : Nat) (s : PoolState) : Prop :=
  Relation.ReflTransGen PoolStep (initPool n maxUse) s

/-- The pool invariant: outstanding leases are pairwise distinct entry
ids, entry ids are unique, an entry is Leased exactly when an outstanding
lease references it, every lease references an existing entry, and every
entry id is below the fresh-id counter. -/
def PoolInv (s : PoolState) : Prop :=
  s.leases.Nodup ∧
  (s.entries.map PoolEntry.eid).Nodup ∧
  (∀ e ∈ s.entries, e.state = EntryState.leased ↔ e.eid ∈ s.leases) ∧
  (∀ l ∈ s.leases, ∃ e ∈ s.entries, e.eid = l) ∧
  (∀ e ∈ s.entries, e.eid < s.nextId)

theorem map_preserve_ids (es : List PoolEntry) (g : PoolEntry → PoolEntry)
    (hg : ∀ e, (g e).eid = e.eid) :
    (es.map g).map PoolEntry.eid = es.map PoolEntry.eid := by
  rw [List.map_map]
  exact List.map_congr_left (fun a _ => hg a)

theorem poolInv_init (n maxUse : Nat) : PoolInv (initPool n maxUse) := by
  refine ⟨List.nodup_nil, ?_, ?_, ?_, ?_⟩
  · have h : ((initPool n maxUse).entries.map PoolEntry.eid) = List.range n := by
      simp only [initPool, List.map_map]
      exact List.map_id (List.range n)
    rw [h]
    exact List.nodup_range n
  · intro e he
    simp only [initPool, List.mem_map, List.mem_range] at he
    obtain ⟨i, _, rfl⟩ := he
    simp [initPool]
  · intro l hl
    simp [initPool] at hl
  · intro e he
    simp only [initPool, List.mem_map, List.mem_range] at he
    obtain ⟨i, hi, rfl⟩ := he
    simpa [initPool] using hi

theorem poolInv_checkout {s : PoolState} {engineOk : Bool} {maxUse : Nat}
    {s2 : PoolState} {lid : Nat} (hinv : PoolInv s)
    (h : checkout s engineOk maxUse = .ok (s2, lid)) :
    lid ∉ s.leases ∧ s2.leases = lid :: s.leases ∧ PoolInv s2 := by
  obtain ⟨hL, hI, hiff, hmemE, hbound⟩ := hinv
  unfold checkout at h
  split at h
  · exact absurd h (by simp)
  next hsd =>
    split at h
    next e hfind =>
      have hmem : e ∈ s.entries := List.mem_of_find?_eq_some hfind
      have hidle : e.state = EntryState.idle := by
        have hp := List.find?_some hfind
        simpa using hp
      simp only [Except.ok.injEq, Prod.mk.injEq] at h
      obtain ⟨hs2, hlid⟩ := h
      subst hlid
      have hnot : e.eid ∉ s.leases := by
        intro hm
        have hls := (hiff e hmem).mpr hm
        rw [hidle] at hls
        exact EntryState.noConfusion hls
      subst hs2
      refine ⟨hnot, rfl, ?_, ?_, ?_, ?_, ?_⟩
      · exact List.nodup_cons.mpr ⟨hnot, hL⟩
      · have hids : (markLeased s.entries e.eid).map PoolEntry.eid =
            s.entries.map PoolEntry.eid := by
          unfold markLeased
          exact map_preserve_ids _ _ (fun a => by by_cases hc : a.eid = e.eid <;> simp [hc])
        simpa [hids] using hI
      · intro e2 he2
        unfold markLeased at he2
        rw [List.mem_map] at he2
        obtain ⟨a, ha, rfl⟩ := he2
        by_cases hc : a.eid = e.eid
        · simp [hc]
        · simp only [if_neg hc, List.mem_cons]
          rw [hiff a ha]
          exact ⟨Or.inr, fun hm => hm.resolve_left hc⟩
      · intro l hl
        rcases List.mem_cons.mp hl with hle | hls
        · refine ⟨{ e with state := .leased }, ?_, ?_⟩
          · unfold markLeased
            exact List.mem_map.mpr ⟨e, hmem, by simp⟩
          · simpa using hle.symm
        · obtain ⟨a, ha, heq⟩ := hmemE l hls
          refine ⟨if a.eid = e.eid then { a with state := .leased } else a, ?_, ?_⟩
          · unfold markLeased
            exact List.mem_map.mpr ⟨a, ha, rfl⟩
          · have hpe : (if a.eid = e.eid then
                { a with state := EntryState.leased } else a).eid = a.eid := by
              split <;> rfl
            rw [hpe]
            exact heq
      · intro e2 he2
        unfold markLeased at he2
        rw [List.mem_map] at he2
        obtain ⟨a, ha, rfl⟩ := he2
        have := hbound a ha
        by_cases hc : a.eid = e.eid <;> simpa [hc] using this
    next hfind =>
      split at h
      next hok =>
        simp only [Except.ok.injEq, Prod.mk.injEq] at h
        obtain ⟨hs2, hlid⟩ := h
        subst hlid
        have hnot : s.nextId ∉ s.leases := by
          intro hm
          obtain ⟨a, ha, heq⟩ := hmemE _ hm
          have := hbound a ha
          omega
        subst hs2
        have hfreshNotMem : s.nextId ∉ s.entries.map PoolEntry.eid := by
          intro hm
          rw [List.mem_map] at hm
          obtain ⟨a, ha, heq⟩ := hm
          have := hbound a ha
          omega
        refine ⟨hnot, rfl, ?_, ?_, ?_, ?_, ?_⟩
        · exact List.nodup_cons.mpr ⟨hnot, hL⟩
        · simpa using List.nodup_cons.mpr ⟨hfreshNotMem, hI⟩
        · intro e2 he2
          rcases List.mem_cons.mp he2 with rfl | ha
          · simp
          · have hne : e2.eid ≠ s.nextId := by
              have := hbound e2 ha
              omega
            simp only [List.mem_cons]
            rw [hiff e2 ha]
            exact ⟨Or.inr, fun hm => hm.resolve_left hne⟩
        · intro l hl
          rcases List.mem_cons.mp hl with hle | hls
          · exact ⟨_, List.mem_cons_self _ _, hle.symm⟩
          · obtain ⟨a, ha, heq⟩ := hmemE l hls
            exact ⟨a, List.mem_cons_of_mem _ ha, heq⟩
        · intro e2 he2
          rcases List.mem_cons.mp he2 with rfl | ha
          · simp
          · have := hbound e2 ha
            simp only []
            omega
      next =>
        exact absurd h (by simp)

theorem poolInv_release {s : PoolState} (hinv : PoolInv s) (lid : Nat) :
    PoolInv (release s lid) := by
  obtain ⟨hL, hI, hiff, hmemE, hbound⟩ := hinv
  unfold release
  split
  next hmem =>
    refine ⟨hL.erase lid, ?_, ?_, ?_, ?_⟩
    · have hids : ((s.entries.map (fun e => if e.eid = lid then releaseEntry e else e)).map
          PoolEntry.eid) = s.entries.map PoolEntry.eid := by
        refine map_preserve_ids _ _ (fun a => ?_)
        by_cases hc : a.eid = lid
        · simp only [if_pos hc, releaseEntry]
          split <;> rfl
        · simp [hc]
      simpa [hids] using hI
    · intro e2 he2
      rw [List.mem_map] at he2
      obtain ⟨a, ha, rfl⟩ := he2
      by_cases hc : a.eid = lid
      · simp only [if_pos hc]
        have hrelState : (releaseEntry a).state ≠ EntryState.leased := by
          unfold releaseEntry
          split <;> simp
      
        have hrelEid : (releaseEntry a).eid = a.eid := by
          unfold releaseEntry
          split <;> rfl
        constructor
        · intro hst
          exact absurd hst hrelState
        · intro hm
          rw [hrelEid, hc] at hm
          exact absurd hm (hL.not_mem_erase)
      · simp only [if_neg hc]
        rw [hiff a ha]
        exact (List.mem_erase_of_ne hc).symm
    · intro l hl
      have hls : l ∈ s.leases := List.mem_of_mem_erase hl
      obtain ⟨a, ha, heq⟩ := hmemE l hls
      refine ⟨if a.eid = lid then releaseEntry a else a, List.mem_map.mpr ⟨a, ha, rfl⟩, ?_⟩
      by_cases hc : a.eid = lid
      · simp only [if_pos hc]
        unfold releaseEntry
        split <;> simpa using heq
      · simpa [hc] using heq
    · intro e2 he2
      rw [List.mem_map] at he2
      obtain ⟨a, ha, rfl⟩ := he2
      have := hbound a ha
      by_cases hc : a.eid = lid
      · simp only [if_pos hc]
        unfold releaseEntry
        split <;> simpa using this
      · simpa [hc] using this
  next =>
    exact ⟨hL, hI, hiff, hmemE, hbound⟩

theorem poolInv_maintain {s : PoolState} (hinv : PoolInv s) (stale : Nat → Bool)
    (topUp maxUse : Nat) : PoolInv (maintain s stale topUp maxUse) := by
  obtain ⟨hL, hI, hiff, hmemE, hbound⟩ := hinv
  have hleaseBound : ∀ l ∈ s.leases, l < s.nextId := by
    intro l hl
    obtain ⟨a, ha, heq⟩ := hmemE l hl
    have := hbound a ha
    omega
  unfold maintain
  refine ⟨hL, ?_, ?_, ?_, ?_⟩
  · rw [List.map_append]
    have hsubL : List.Sublist ((s.entries.filter (fun e =>
        !((decide (e.state = EntryState.idle) && stale e.eid) ||
          decide (e.state = EntryState.retiring)))).map PoolEntry.eid)
        (s.entries.map PoolEntry.eid) :=
      (List.filter_sublist _).map PoolEntry.eid
    have hkeptN := List.Nodup.sublist hsubL hI
    have hfreshN : (((List.range topUp).map
        (fun i => ({ eid := s.nextId + i, state := .idle, useCount := 0,
                     maxUseCount := maxUse } : PoolEntry))).map PoolEntry.eid).Nodup := by
      rw [List.map_map]
      refine List.Nodup.map ?_ (List.nodup_range topUp)
      intro a b hab
      simp only [Function.comp] at hab
      omega
    refine hkeptN.append hfreshN ?_
    intro x hx1 hx2
    rw [List.mem_map] at hx1 hx2
    obtain ⟨a, ha, rfl⟩ := hx1
    obtain ⟨b, hb, hbe⟩ := hx2
    rw [List.mem_map] at hb
    obtain ⟨i, hi, rfl⟩ := hb
    have hlt := hbound a (List.mem_of_mem_filter ha)
    simp only [] at hbe
    omega
  · intro e2 he2
    rcases List.mem_append.mp he2 with hk | hf
    · exact hiff e2 (List.mem_of_mem_filter hk)
    · rw [List.mem_map] at hf
      obtain ⟨i, hi, rfl⟩ := hf
      simp only []
      constructor
      · intro hst
        exact EntryState.noConfusion hst
      · intro hm
        have := hleaseBound _ hm
        omega
  · intro l hl
    obtain ⟨a, ha, heq⟩ := hmemE l hl
    have hstate : a.state = EntryState.leased := (hiff a ha).mpr (heq ▸ hl)
    refine ⟨a, ?_, heq⟩
    refine List.mem_append_left _ (List.mem_filter.mpr ⟨ha, ?_⟩)
    simp [hstate]
  · intro e2 he2
    rcases List.mem_append.mp he2 with hk | hf
    · have := hbound e2 (List.mem_of_mem_filter hk)
      simp only []
      omega
    · rw [List.mem_map] at hf
      obtain ⟨i, hi, rfl⟩ := hf
      rw [List.mem_range] at hi
      simp only []
      omega

theorem poolInv_shutdown {s : PoolState} (hinv : PoolInv s) : PoolInv (shutdownPool s) := by
  obtain ⟨hL, hI, hiff, hmemE, hbound⟩ := hinv
  unfold shutdownPool
  refine ⟨hL, ?_, ?_, ?_, ?_⟩
  · have hids := map_preserve_ids s.entries
      (fun e => if e.state = EntryState.leased then e else { e with state := .closed })
      (fun a => by by_cases hc : a.state = EntryState.leased <;> simp [hc])
    simpa [hids] using hI
  · intro e2 he2
    rw [List.mem_map] at he2
    obtain ⟨a, ha, rfl⟩ := he2
    by_cases hc : a.state = EntryState.leased
    · simp only [if_pos hc]
      exact hiff a ha
    · have hnm : a.eid ∉ s.leases := fun hm => hc ((hiff a ha).mpr hm)
      simp [hc, hnm]
  · intro l hl
    obtain ⟨a, ha, heq⟩ := hmemE l hl
    refine ⟨if a.state = EntryState.leased then a else { a with state := .closed },
      List.mem_map.mpr ⟨a, ha, rfl⟩, ?_⟩
    split
    · exact heq
    · simpa using heq
  · intro e2 he2
    rw [List.mem_map] at he2
    obtain ⟨a, ha, rfl⟩ := he2
    have := hbound a ha
    split
    · simpa using this
    · simpa using this

theorem poolInv_step {s s2 : PoolState} (hinv : PoolInv s) (h : PoolStep s s2) : PoolInv s2 := by
  cases h with
  | checkoutOk engineOk maxUse s2 lid hco => exact (poolInv_checkout hinv hco).2.2
  | releaseStep lid => exact poolInv_release hinv lid
  | maintainStep stale topUp maxUse => exact poolInv_maintain hinv stale topUp maxUse
  | shutdownStep => exact poolInv_shutdown hinv

theorem poolInv_reachable {n maxUse : Nat} {s : PoolState} (h : ReachablePool n maxUse s) :
    PoolInv s := by
  unfold ReachablePool at h
  induction h with
  | refl => exact poolInv_init n maxUse
  | tail hsteps hstep ih => exact poolInv_step ih hstep

/-- A successful checkout pushes the new lease onto the lease list. -/
theorem checkout_leases {s : PoolState} {engineOk : Bool} {maxUse : Nat}
    {s2 : PoolState} {lid : Nat} (h : checkout s engineOk maxUse = .ok (s2, lid)) :
    s2.leases = lid :: s.leases := by
  unfold checkout at h
  split at h
  · exact absurd h (by simp)
  · split at h
    next e hfind =>
      simp only [Except.ok.injEq, Prod.mk.injEq] at h
      obtain ⟨hs2, hlid⟩ := h
      subst hlid
      subst hs2
      rfl
    next hfind =>
      split at h
      · simp only [Except.ok.injEq, Prod.mk.injEq] at h
        obtain ⟨hs2, hlid⟩ := h
        subst hlid
        subst hs2
        rfl
      · exact absurd h (by simp)

/-- Modelled from the spec: the `get_browser_page` async context manager
of the pool (used by every analyzer as
`async with self.browser_manager.get_browser_page() as page:`): check out
a lease, run the body with it, and release the lease on the way out — the
release runs on every exit path, whether the body returned normally or
raised (a `finally`-shaped guarantee); an acquisition failure propagates
to the caller without creating a lease. -/
def get_browser_page {α : Type} (s : PoolState) (engineOk : Bool) (maxUse : Nat)
    (body : Nat → Except String α) : PoolState × Except String α :=
  match checkout s engineOk maxUse with
  | .error _ => (s, .error "AcquisitionFailed")
  | .ok (s2, lid) => (release s2 lid, body lid)

/-! ## Claim theorems -/

/-- Claim C1: for every reachable state of the Resource Pool, no two
outstanding Leases reference the same PoolEntry at the same time (the
outstanding lease list has no duplicate entry id), and an entry in state
Leased is never handed out again by checkout until it has been released:
every successful checkout from the state returns a lease id that is not
among the outstanding leases, and the lease list stays duplicate-free. -/
theorem pool_mutual_exclusion (n maxUse : Nat) (s : PoolState)
    (h : ReachablePool n maxUse s) :
    s.leases.Nodup ∧
      ∀ (engineOk : Bool) (mu : Nat) (s2 : PoolState) (lid : Nat),
        checkout s engineOk mu = .ok (s2, lid) →
          lid ∉ s.leases ∧ s2.leases = lid :: s.leases ∧ s2.leases.Nodup := by
  have hinv := poolInv_reachable h
  refine ⟨hinv.1, ?_⟩
  intro engineOk mu s2 lid hco
  obtain ⟨h1, h2, hinv2⟩ := poolInv_checkout hinv hco
  exact ⟨h1, h2, hinv2.1⟩

/-- The pool state reached from a two-entry pool after one checkout:
entry 0 is leased, entry 1 still idle. -/
def poolWitnessState : PoolState :=
  { entries := [⟨0, .leased, 0, 5⟩, ⟨1, .idle, 0, 5⟩], leases := [0], nextId := 2,
    shuttingDown := false }

theorem pool_mutual_exclusion_witness :
    poolWitnessState.leases.Nodup ∧
      ∀ (engineOk : Bool) (mu : Nat) (s2 : PoolState) (lid : Nat),
        checkout poolWitnessState engineOk mu = .ok (s2, lid) →
          lid ∉ poolWitnessState.leases ∧ s2.leases = lid :: poolWitnessState.leases ∧
            s2.leases.Nodup :=
  pool_mutual_exclusion 2 5 _
    (Relation.ReflTransGen.single (PoolStep.checkoutOk _ true 5 _ 0 (by rfl)))

/-- Claim C7: every phase that acquires a Lease through the pool context
manager releases it on every exit path — for a body that returns normally
and for a body that raises — exactly once: the outstanding lease list
after the call equals its value before the call, the lease no longer
appears in it, and the body outcome (normal or raised) is passed through. -/
theorem lease_released_every_path {α : Type} (n maxUse : Nat) (s : PoolState)
    (h : ReachablePool n maxUse s) (engineOk : Bool) (mu : Nat)
    (body : Nat → Except String α) (s2 : PoolState) (lid : Nat)
    (hco : checkout s engineOk mu = .ok (s2, lid)) :
    (get_browser_page s engineOk mu body).1.leases = s.leases ∧
      lid ∉ (get_browser_page s engineOk mu body).1.leases ∧
      (get_browser_page s engineOk mu body).2 = body lid := by
  have hinv := poolInv_reachable h
  obtain ⟨hnot, hsh, _⟩ := poolInv_checkout hinv hco
  have hmem : lid ∈ s2.leases := by
    rw [hsh]
    exact List.mem_cons_self _ _
  have hrel : (release s2 lid).leases = s.leases := by
    unfold release
    rw [if_pos hmem]
    simp only []
    rw [hsh, List.erase_cons_head]
  unfold get_browser_page
  rw [hco]
  exact ⟨hrel, by rw [hrel]; exact hnot, by trivial⟩

theorem lease_released_every_path_witness :
    (get_browser_page (initPool 1 3) true 3
        (fun _ => (.error "navigation failed" : Except String String))).1.leases =
      (initPool 1 3).leases ∧
      0 ∉ (get_browser_page (initPool 1 3) true 3
        (fun _ => (.error "navigation failed" : Except String String))).1.leases ∧
      (get_browser_page (initPool 1 3) true 3
        (fun _ => (.error "navigation failed" : Except String String))).2 =
        (fun _ => (.error "navigation failed" : Except String String)) 0 :=
  lease_released_every_path 1 3 (initPool 1 3) Relation.ReflTransGen.refl true 3
    (fun _ => (.error "navigation failed" : Except String String))
    { entries := [⟨0, .leased, 0, 3⟩], leases := [0], nextId := 1, shuttingDown := false } 0
    (by rfl)

theorem phaseScore_bounds (o : Except String PhaseRes)
    (h : ∀ r, o = .ok r → 0 ≤ r.score ∧ r.score ≤ 100) :
    0 ≤ phaseScore (runPhase o) ∧ phaseScore (runPhase o) ≤ 100 := by
  cases o with
  | ok r => simpa [runPhase, phaseScore] using h r rfl
  | error e => simp [runPhase, phaseScore]

theorem calculate_overall_score_eq {a b c d : ℤ}
    (ha : 0 ≤ a ∧ a ≤ 100) (hb : 0 ≤ b ∧ b ≤ 100)
    (hc : 0 ≤ c ∧ c ≤ 100) (hd : 0 ≤ d ∧ d ≤ 100) :
    calculate_overall_score a b c d =
      pyRound ((a : ℚ) * (35/100) + (b : ℚ) * (25/100) +
        (c : ℚ) * (25/100) + (d : ℚ) * (15/100)) := by
  have ha0 : (0 : ℚ) ≤ (a : ℚ) := by exact_mod_cast ha.1
  have hb0 : (0 : ℚ) ≤ (b : ℚ) := by exact_mod_cast hb.1
  have hc0 : (0 : ℚ) ≤ (c : ℚ) := by exact_mod_cast hc.1
  have hd0 : (0 : ℚ) ≤ (d : ℚ) := by exact_mod_cast hd.1
  have ha1 : (a : ℚ) ≤ 100 := by exact_mod_cast ha.2
  have hb1 : (b : ℚ) ≤ 100 := by exact_mod_cast hb.2
  have hc1 : (c : ℚ) ≤ 100 := by exact_mod_cast hc.2
  have hd1 : (d : ℚ) ≤ 100 := by exact_mod_cast hd.2
  unfold calculate_overall_score
  apply clamp_pyRound_eq
  · have h1 := mul_nonneg ha0 (by norm_num : (0:ℚ) ≤ 35/100)
    have h2 := mul_nonneg hb0 (by norm_num : (0:ℚ) ≤ 25/100)
    have h3 := mul_nonneg hc0 (by norm_num : (0:ℚ) ≤ 25/100)
    have h4 := mul_nonneg hd0 (by norm_num : (0:ℚ) ≤ 15/100)
    linarith
  · have h1 := mul_le_mul_of_nonneg_right ha1 (by norm_num : (0:ℚ) ≤ 35/100)
    have h2 := mul_le_mul_of_nonneg_right hb1 (by norm_num : (0:ℚ) ≤ 25/100)
    have h3 := mul_le_mul_of_nonneg_right hc1 (by norm_num : (0:ℚ) ≤ 25/100)
    have h4 := mul_le_mul_of_nonneg_right hd1 (by norm_num : (0:ℚ) ≤ 15/100)
    linarith

/-- Claim C2: for phase scores in the 0..100 band — a failed or timed-out
phase contributing score 0 at its full weight, with no renormalization of
the denominator — the overall score computed by the pipeline equals the
bare rounded weighted sum `round(s*0.35 + seo*0.25 + sec*0.25 + m*0.15)`:
the clamp never alters it. -/
theorem overall_score_weighted_sum (so se sc mo : Except String PhaseRes)
    (hso : ∀ r, so = .ok r → 0 ≤ r.score ∧ r.score ≤ 100)
    (hse : ∀ r, se = .ok r → 0 ≤ r.score ∧ r.score ≤ 100)
    (hsc : ∀ r, sc = .ok r → 0 ≤ r.score ∧ r.score ≤ 100)
    (hmo : ∀ r, mo = .ok r → 0 ≤ r.score ∧ r.score ≤ 100) :
    calculate_overall_score (phaseScore (runPhase so)) (phaseScore (runPhase se))
      (phaseScore (runPhase sc)) (phaseScore (runPhase mo)) =
    pyRound ((phaseScore (runPhase so) : ℚ) * (35/100) +
      (phaseScore (runPhase se) : ℚ) * (25/100) +
      (phaseScore (runPhase sc) : ℚ) * (25/100) +
      (phaseScore (runPhase mo) : ℚ) * (15/100)) :=
  calculate_overall_score_eq (phaseScore_bounds so hso) (phaseScore_bounds se hse)
    (phaseScore_bounds sc hsc) (phaseScore_bounds mo hmo)

theorem overall_score_weighted_sum_witness :
    calculate_overall_score (phaseScore (runPhase (Except.ok ⟨90, "speed"⟩)))
      (phaseScore (runPhase (Except.error "SEO Analysis took too long to complete")))
      (phaseScore (runPhase (Except.ok ⟨70, "security"⟩)))
      (phaseScore (runPhase (Except.ok ⟨40, "mobile"⟩))) = 55 := by
  have h := overall_score_weighted_sum (Except.ok ⟨90, "speed"⟩)
    (Except.error "SEO Analysis took too long to complete")
    (Except.ok ⟨70, "security"⟩) (Except.ok ⟨40, "mobile"⟩)
    (fun r hr => by cases hr; norm_num)
    (fun r hr => by cases hr)
    (fun r hr => by cases hr; norm_num)
    (fun r hr => by cases hr; norm_num)
  rw [h]
  simp only [runPhase, phaseScore]
  norm_num [pyRound, ratFloor_eq_intFloor]

/-- A fan-out run in which the foundational connectivity probe reports
total unreachability while the SSL probe nevertheless found a
certificate, and the dependent probes succeeded on their own. -/
def unreachableYetCertRuns : SecurityProbeRun :=
  { connectivity := { connected := false, canFetchContent := false },
    sslRun := .ok { certificateFound := true, error := none, isValid := true },
    headersRun := .ok
      { error := none, headersScore := 80, statusCode := some 200, presentHeaders := 5,
        missingCriticalHeaders := [], dangerousHeaders := [], confidenceWarning := none },
    httpsRun := .ok { usesHttps := true },
    cookieRun := .ok { cookiesFound := false, cookieSecurityScore := 100 },
    cspResult := {} }

/-- Claim C4 counterexample: the connectivity probe signals total
unreachability (`connected = false`, `can_fetch_content = false`), yet
the headers probe's result is not forced to a Failed state — the cascade
of lines 118-126 additionally requires `_is_ssl_connection_failure` on
the SSL analysis, which found a certificate here — so the returned
headers analysis still has no error key and keeps its own score. -/
theorem cascade_unreachable_cex :
    (security_fan_out unreachableYetCertRuns).headersAnalysis.error = none ∧
      (security_fan_out unreachableYetCertRuns).headersAnalysis.headersScore = 80 ∧
      (security_fan_out unreachableYetCertRuns).headersAnalysis ≠
        create_failed_headers_analysis "Connection failed - cannot reach server" := by
  refine ⟨rfl, rfl, ?_⟩
  decide

/-- Claim C4, amended: the forced-failure cascade fires exactly when the
SSL probe reports a connection-class failure (no certificate, error
mentioning timeout/connection/dns/network) AND the connectivity probe
reports that content cannot be fetched; then every dependent probe's
result — headers, cookies, HTTPS and content-security — is forcibly
overwritten with the corresponding Failed dictionary, regardless of what
that probe's own execution returned. -/
theorem cascade_unreachable_amended (runs : SecurityProbeRun)
    (h1 : is_ssl_connection_failure (resolveSslRun runs.sslRun) = true)
    (h2 : runs.connectivity.canFetchContent = false) :
    (security_fan_out runs).headersAnalysis =
        create_failed_headers_analysis "Connection failed - cannot reach server" ∧
      (security_fan_out runs).cookieAnalysis =
        create_failed_cookie_analysis "Connection failed - cannot reach server" ∧
      (security_fan_out runs).httpsAnalysis =
        create_failed_https_analysis "Connection failed - cannot reach server" ∧
      (security_fan_out runs).cspAnalysis =
        create_failed_csp_analysis "Connection failed - cannot reach server" := by
  unfold security_fan_out
  rw [h1, h2]
  simp

/-- A fan-out run whose SSL probe raised a connection-class error while
the connectivity probe also could not fetch content: the cascade case. -/
def fullyUnreachableRuns : SecurityProbeRun :=
  { connectivity := { connected := false, canFetchContent := false },
    sslRun := .error "Cannot connect to host: connection refused",
    headersRun := .ok
      { error := none, headersScore := 80, statusCode := some 200, presentHeaders := 5,
        missingCriticalHeaders := [], dangerousHeaders := [], confidenceWarning := none },
    httpsRun := .ok { usesHttps := true },
    cookieRun := .ok { cookiesFound := false, cookieSecurityScore := 100 },
    cspResult := {} }

theorem cascade_unreachable_amended_witness :
    (security_fan_out fullyUnreachableRuns).headersAnalysis =
        create_failed_headers_analysis "Connection failed - cannot reach server" ∧
      (security_fan_out fullyUnreachableRuns).cookieAnalysis =
        create_failed_cookie_analysis "Connection failed - cannot reach server" ∧
      (security_fan_out fullyUnreachableRuns).httpsAnalysis =
        create_failed_https_analysis "Connection failed - cannot reach server" ∧
      (security_fan_out fullyUnreachableRuns).cspAnalysis =
        create_failed_csp_analysis "Connection failed - cannot reach server" :=
  cascade_unreachable_amended fullyUnreachableRuns (by decide) (by decide)

/-- A fan-out run in which exactly one probe — headers, probe #2 of the
gather — throws, while the SSL probe itself returned (not raised) a
connection-class failure dictionary and content fetching still works. -/
def oneThrowDegradedRuns : SecurityProbeRun :=
  { connectivity := { connected := true, canFetchContent := true },
    sslRun := .ok
      { certificateFound := false, error := some "SSL connection failed: timed out",
        isValid := false },
    headersRun := .error "probe 2 raised ClientError",
    httpsRun := .ok { usesHttps := true },
    cookieRun := .ok
      { error := none, cookiesFound := true, totalCookies := 3, secureCookies := 1,
        httponlyCookies := 1, samesiteCookies := 0, insecureSensitiveCookies := [],
        cookieSecurityScore := 85, confidenceWarning := none },
    cspResult := {} }

/-- Claim C5 counterexample: a run in which exactly one probe throws (the
headers probe) and yet a sibling's result does not carry the payload its
own execution produced — the SSL probe returned a connection-class
failure dictionary, so the correlation pass of lines 132-135 halves the
cookie probe's own score from 85 to 42 and attaches a confidence warning,
refuting the claim as stated at this concrete input. -/
theorem probe_failure_isolation_cex :
    (security_fan_out oneThrowDegradedRuns).cookieAnalysis ≠
        resolveCookieRun oneThrowDegradedRuns.cookieRun ∧
      (security_fan_out oneThrowDegradedRuns).cookieAnalysis.cookieSecurityScore = 42 ∧
      (resolveCookieRun oneThrowDegradedRuns.cookieRun).cookieSecurityScore = 85 := by
  refine ⟨?_, rfl, rfl⟩
  decide

/-- Claim C5, amended: in every fan-out run, each probe's exception is
caught and converted into a Failed probe result — in every branch of the
correlation pass the corresponding returned analysis carries an error
key, never a propagated exception — and the returned set carries one
analysis per launched probe; sibling probes keep the payloads their own
execution produced only when the SSL analysis does not signal a
connection-class failure: under that condition, when the headers probe
(probe #2) throws, it is marked failed with its own exception text and
all its siblings (plus the content-security result) are returned exactly
as produced. When the SSL analysis does signal a connection-class
failure, sibling results are confidence-reduced or overwritten instead. -/
theorem probe_failure_isolation_amended (runs : SecurityProbeRun) :
    (∀ e, runs.sslRun = .error e → (security_fan_out runs).sslAnalysis.error ≠ none) ∧
      (∀ e, runs.headersRun = .error e →
        (security_fan_out runs).headersAnalysis.error ≠ none) ∧
      (∀ e, runs.httpsRun = .error e → (security_fan_out runs).httpsAnalysis.error ≠ none) ∧
      (∀ e, runs.cookieRun = .error e →
        (security_fan_out runs).cookieAnalysis.error ≠ none) ∧
      (is_ssl_connection_failure (resolveSslRun runs.sslRun) = false →
        ∀ e, runs.headersRun = .error e →
          (security_fan_out runs).headersAnalysis = create_failed_headers_analysis e ∧
            (security_fan_out runs).sslAnalysis = resolveSslRun runs.sslRun ∧
            (security_fan_out runs).httpsAnalysis = resolveHttpsRun runs.httpsRun ∧
            (security_fan_out runs).cookieAnalysis = resolveCookieRun runs.cookieRun ∧
            (security_fan_out runs).cspAnalysis = runs.cspResult) := by
  refine ⟨?_, ?_, ?_, ?_, ?_⟩
  · intro e he
    unfold security_fan_out
    rw [he]
    split
    · simp [resolveSslRun, create_failed_ssl_analysis]
    · split
      · simp [resolveSslRun, create_failed_ssl_analysis]
      · simp [resolveSslRun, create_failed_ssl_analysis]
  · intro e he
    unfold security_fan_out
    rw [he]
    split
    · simp [create_failed_headers_analysis]
    · split
      · simp [resolveHeadersRun, create_failed_headers_analysis, reduce_headers_confidence]
      · simp [resolveHeadersRun, create_failed_headers_analysis]
  · intro e he
    unfold security_fan_out
    rw [he]
    split
    · simp [create_failed_https_analysis]
    · split
      · simp [resolveHttpsRun, create_failed_https_analysis]
      · simp [resolveHttpsRun, create_failed_https_analysis]
  · intro e he
    unfold security_fan_out
    rw [he]
    split
    · simp [create_failed_cookie_analysis]
    · split
      · simp [resolveCookieRun, create_failed_cookie_analysis, reduce_cookie_confidence]
      · simp [resolveCookieRun, create_failed_cookie_analysis]
  · intro hconn e he
    unfold security_fan_out
    rw [hconn, he]
    simp [resolveHeadersRun]

/-- A fan-out run where only the headers probe throws. -/
def headersThrowRuns : SecurityProbeRun :=
  { connectivity := { connected := true, canFetchContent := true },
    sslRun := .ok { certificateFound := true, error := none, isValid := true },
    headersRun := .error "probe 2 raised ClientError",
    httpsRun := .ok { usesHttps := true, redirectWorking := true },
    cookieRun := .ok
      { cookiesFound := true, totalCookies := 2, secureCookies := 2,
        httponlyCookies := 1, samesiteCookies := 1, cookieSecurityScore := 85 },
    cspResult := { cspImplemented := true, sriUsage := 3, csrfProtection := "present" } }

theorem probe_failure_isolation_amended_witness :
    (security_fan_out headersThrowRuns).headersAnalysis =
        create_failed_headers_analysis "probe 2 raised ClientError" ∧
      (security_fan_out headersThrowRuns).sslAnalysis =
        resolveSslRun headersThrowRuns.sslRun ∧
      (security_fan_out headersThrowRuns).httpsAnalysis =
        resolveHttpsRun headersThrowRuns.httpsRun ∧
      (security_fan_out headersThrowRuns).cookieAnalysis =
        resolveCookieRun headersThrowRuns.cookieRun ∧
      (security_fan_out headersThrowRuns).cspAnalysis = headersThrowRuns.cspResult :=
  (probe_failure_isolation_amended headersThrowRuns).2.2.2.2 (by decide)
    "probe 2 raised ClientError" rfl

/-- Claim C6: when the SSL probe reports a handshake/connection-layer
failure but basic content fetching still works, the dependent headers and
cookie results are not replaced: each keeps its own payload, with its
score halved (floor division by two) and a reduced-confidence annotation
attached. -/
theorem confidence_reduction_on_degraded (runs : SecurityProbeRun)
    (sa : SslAnalysis) (ha : HeadersAnalysis) (ca : CookieAnalysis)
    (h1 : runs.sslRun = .ok sa) (h2 : is_ssl_connection_failure sa = true)
    (h3 : runs.connectivity.canFetchContent = true)
    (h4 : runs.headersRun = .ok ha) (h5 : ha.error = none)
    (h6 : runs.cookieRun = .ok ca) (h7 : ca.error = none)
    (h8 : 0 ≤ ca.cookieSecurityScore) :
    (security_fan_out runs).headersAnalysis =
        { ha with
          headersScore := ha.headersScore / 2,
          confidenceWarning := some "Reduced confidence: SSL connection issues detected" } ∧
      (security_fan_out runs).cookieAnalysis =
        { ca with
          cookieSecurityScore := ca.cookieSecurityScore / 2,
          confidenceWarning := some "Reduced confidence: SSL connection issues detected" } := by
  have hmax : max 0 (ca.cookieSecurityScore / 2) = ca.cookieSecurityScore / 2 := by omega
  unfold security_fan_out
  rw [h1, h3]
  simp only [resolveSslRun, h2, Bool.not_true, Bool.and_false, Bool.false_eq_true, if_false,
    if_true, ite_true, ite_false, Bool.true_and]
  rw [h4, h6]
  simp only [resolveHeadersRun, resolveCookieRun, reduce_headers_confidence,
    reduce_cookie_confidence, h5, h7, if_pos, hmax, Nat.zero_max]
  exact ⟨rfl, rfl⟩

/-- A fan-out run whose SSL probe returned a connection-class failure
dictionary (the `ssl.SSLError` branch of lines 279-293) while content
fetching still works and the dependent probes succeeded. -/
def degradedSslRuns : SecurityProbeRun :=
  { connectivity := { connected := true, canFetchContent := true },
    sslRun := .ok
      { certificateFound := false, error := some "SSL connection failed: timed out",
        isValid := false },
    headersRun := .ok
      { error := none, headersScore := 57, statusCode := some 200, presentHeaders := 4,
        missingCriticalHeaders := [], dangerousHeaders := [], confidenceWarning := none },
    httpsRun := .ok { usesHttps := true },
    cookieRun := .ok
      { error := none, cookiesFound := true, totalCookies := 3, secureCookies := 1,
        httponlyCookies := 1, samesiteCookies := 0, insecureSensitiveCookies := [],
        cookieSecurityScore := 85, confidenceWarning := none },
    cspResult := {} }

theorem confidence_reduction_on_degraded_witness :
    (security_fan_out degradedSslRuns).headersAnalysis =
        { error := none, headersScore := 28, statusCode := some 200, presentHeaders := 4,
          missingCriticalHeaders := [], dangerousHeaders := [],
          confidenceWarning := some "Reduced confidence: SSL connection issues detected" } ∧
      (security_fan_out degradedSslRuns).cookieAnalysis =
        { error := none, cookiesFound := true, totalCookies := 3, secureCookies := 1,
          httponlyCookies := 1, samesiteCookies := 0, insecureSensitiveCookies := [],
          cookieSecurityScore := 42,
          confidenceWarning := some "Reduced confidence: SSL connection issues detected" } :=
  confidence_reduction_on_degraded degradedSslRuns
    { certificateFound := false, error := some "SSL connection failed: timed out",
      isValid := false }
    { error := none, headersScore := 57, statusCode := some 200, presentHeaders := 4,
      missingCriticalHeaders := [], dangerousHeaders := [], confidenceWarning := none }
    { error := none, cookiesFound := true, totalCookies := 3, secureCookies := 1,
      httponlyCookies := 1, samesiteCookies := 0, insecureSensitiveCookies := [],
      cookieSecurityScore := 85, confidenceWarning := none }
    rfl (by decide) rfl rfl rfl rfl rfl (by decide)

/-- Claim C10 (refuted by the code — code bug): evaluated at the failing
input, a successful fetch whose response carries zero `Set-Cookie`
headers, the program returns cookie_security_score 50 — identical to the
score of a run whose cookie fetch raises — not the claimed 100:
`response.headers.getall` with no default raises `KeyError` on an absent
key, landing in the same except-handler as a failed fetch, so the
100-scoring zero-cookie branch of lines 776-784 is unreachable and the
claimed distinction between absent data and ungatherable data does not
exist in the program, against the intent of its own comments. -/
theorem cookie_zero_header_scores_fifty :
    (analyze_cookie_security (.fetched [])).cookieSecurityScore = 50 ∧
      (analyze_cookie_security (.fetched [])).error = some "KeyError: Set-Cookie" ∧
      (analyze_cookie_security (.exc "Cannot connect to host")).cookieSecurityScore = 50 :=
  ⟨rfl, rfl, rfl⟩

theorem run_bind_def {α β : Type} (x : Run α) (f : α → Run β) :
    (x >>= f) = Run.bindR x f := rfl

theorem run_pure_def {α : Type} (a : α) : (pure a : Run α) = Run.pureR a := rfl

theorem phaseStep_cb_irrel (cb cb2 : ProgressSink) (out : Except String PhaseRes)
    (okStage failStage : String) (pct : Nat) (okMsg : String) :
    phaseStep cb out okStage failStage pct okMsg =
      phaseStep cb2 out okStage failStage pct okMsg := by
  cases out <;>
    simp [phaseStep, run_bind_def, Run.bindR, send_progress_apply]

/-- Claim C9: the orchestrator invokes a synchronous and an asynchronous
progress sink the same way — handing both the same four arguments — and
an exception raised by the sink during any notification is caught: the
notification step always succeeds (while still recording the event), and
the entire outcome of `analyze_website` — returned result and emitted
event trace alike — does not depend on the sink at all, so a sink failure
never aborts the run or changes the returned result. -/
theorem sink_failures_never_abort :
    (∀ (f : String → Nat → String → Bool → Except String Unit) stage progress message error,
        invokeCallback (ProgressSink.syncCb f) stage progress message error =
          f stage progress message error) ∧
      (∀ (f : String → Nat → String → Bool → Except String Unit) stage progress message error,
        invokeCallback (ProgressSink.asyncCb f) stage progress message error =
          f stage progress message error) ∧
      (∀ cb stage progress message error evs,
        send_progress cb stage progress message error evs =
          (Except.ok (), evs ++ [⟨stage, progress, message, error⟩])) ∧
      (∀ inp cb cb2, analyze_website inp cb = analyze_website inp cb2) := by
  refine ⟨fun f s p m e => rfl, fun f s p m e => rfl, ?_, ?_⟩
  · intro cb s p m e evs
    rw [send_progress_apply]
  · intro inp cb cb2
    unfold analyze_website analyze_websiteRun
    simp only [send_progress_apply, phaseStep_cb_irrel cb cb2]

/-- Claim C3: on a valid, normalizable target, for every combination of
phase failures or timeouts and whether screenshots are included, every
later phase is still executed and `analyze_website` returns — never
throws — a complete result carrying an entry for each of the four phases,
each entry reflecting that phase's own outcome (score 0 with the recorded
reason for a failed phase), with the overall score aggregated from them. -/
theorem pipeline_no_short_circuit (inp : RunInput) (cb : ProgressSink)
    (hv : inp.urlValid = true) (hf : inp.aggExc = none) :
    (analyze_website inp cb).1 = Except.ok
      { overallScore := calculate_overall_score (phaseScore (runPhase inp.speedRun))
          (phaseScore (runPhase inp.seoRun)) (phaseScore (runPhase inp.securityRun))
          (phaseScore (runPhase inp.mobileRun)),
        overallGrade := get_grade (calculate_overall_score (phaseScore (runPhase inp.speedRun))
          (phaseScore (runPhase inp.seoRun)) (phaseScore (runPhase inp.securityRun))
          (phaseScore (runPhase inp.mobileRun))),
        speed := runPhase inp.speedRun, seo := runPhase inp.seoRun,
        security := runPhase inp.securityRun, mobile := runPhase inp.mobileRun,
        fatalError := none } := by
  obtain ⟨v, sp, se, sec, mo, scr, ag⟩ := inp
  dsimp only at hv hf ⊢
  subst hv
  subst hf
  cases sp <;> cases se <;> cases sec <;> cases mo <;> cases scr <;>
    simp [analyze_website, analyze_websiteRun, phaseStep, send_progress_apply,
      run_bind_def, run_pure_def, Run.bindR, Run.pureR, runPhase]

/-- The pipeline input used by the C3 witness: speed and security fail,
the rest succeed. -/
def mixedFailureInput : RunInput :=
  { urlValid := true,
    speedRun := .error "Speed Analysis took too long to complete",
    seoRun := .ok ⟨70, "seo payload"⟩,
    securityRun := .error "browser pool exhausted",
    mobileRun := .ok ⟨40, "mobile payload"⟩,
    includeScreenshots := true,
    aggExc := none }

theorem pipeline_no_short_circuit_witness :
    (analyze_website mixedFailureInput ProgressSink.noCb).1 = Except.ok
      { overallScore := calculate_overall_score
          (phaseScore (runPhase mixedFailureInput.speedRun))
          (phaseScore (runPhase mixedFailureInput.seoRun))
          (phaseScore (runPhase mixedFailureInput.securityRun))
          (phaseScore (runPhase mixedFailureInput.mobileRun)),
        overallGrade := get_grade (calculate_overall_score
          (phaseScore (runPhase mixedFailureInput.speedRun))
          (phaseScore (runPhase mixedFailureInput.seoRun))
          (phaseScore (runPhase mixedFailureInput.securityRun))
          (phaseScore (runPhase mixedFailureInput.mobileRun))),
        speed := runPhase mixedFailureInput.speedRun,
        seo := runPhase mixedFailureInput.seoRun,
        security := runPhase mixedFailureInput.securityRun,
        mobile := runPhase mixedFailureInput.mobileRun,
        fatalError := none } :=
  pipeline_no_short_circuit mixedFailureInput ProgressSink.noCb rfl rfl

/-- Claim C8, amended: the percent values of the progress events emitted
during one run form a monotonically non-decreasing sequence on the
invalid-target path and on every run whose result-combination block does
not raise — any combination of phase failures included; on the
fatal-failure path the amendment is forced: the handler of lines 262-286
emits a final percent-0 error event after events of higher percent (see
the counterexample), breaking monotonicity there. -/
theorem progress_monotone_nonfatal (inp : RunInput) (cb : ProgressSink)
    (hf : inp.aggExc = none) :
    List.Chain' (· ≤ ·) (((analyze_website inp cb).2).map ProgressEvent.percent) := by
  obtain ⟨v, sp, se, sec, mo, scr, ag⟩ := inp
  dsimp only at hf
  subst hf
  cases v <;> cases sp <;> cases se <;> cases sec <;> cases mo <;> cases scr <;>
    simp [analyze_website, analyze_websiteRun, phaseStep, send_progress_apply,
      run_bind_def, run_pure_def, Run.bindR, Run.pureR, Run.raise]

theorem progress_monotone_nonfatal_witness :
    List.Chain' (· ≤ ·)
      (((analyze_website mixedFailureInput ProgressSink.noCb).2).map ProgressEvent.percent) :=
  progress_monotone_nonfatal mixedFailureInput ProgressSink.noCb rfl

/-- The fatal-path run refuting claim C8 as stated: every phase succeeds,
then the result-combination block raises; the outer handler emits a final
"Analysis failed" event with percent 0 after the percent-95 event, so the
emitted percent sequence 0,10,25,30,50,55,75,90,95,0 is not monotone. -/
theorem progress_monotone_cex :
    ¬ List.Chain' (· ≤ ·)
      (((analyze_website
          { urlValid := true, speedRun := .ok ⟨80, "speed"⟩, seoRun := .ok ⟨70, "seo"⟩,
            securityRun := .ok ⟨60, "security"⟩, mobileRun := .ok ⟨50, "mobile"⟩,
            includeScreenshots := false,
            aggExc := some "unsupported operand type in result combination" }
          ProgressSink.noCb).2).map ProgressEvent.percent) := by
  intro hchain
  have hevs : ((analyze_website
      { urlValid := true, speedRun := .ok ⟨80, "speed"⟩, seoRun := .ok ⟨70, "seo"⟩,
        securityRun := .ok ⟨60, "security"⟩, mobileRun := .ok ⟨50, "mobile"⟩,
        includeScreenshots := false,
        aggExc := some "unsupported operand type in result combination" }
      ProgressSink.noCb).2).map ProgressEvent.percent =
      [0, 10, 25, 30, 50, 55, 75, 90, 95, 0] := by rfl
  rw [hevs] at hchain
  simp [List.chain'_cons, List.chain'_singleton] at hchain
